import Mathlib

/-!
Shallow embedding of `src/backend/engine/prediction_engine.py` (class
`PredictionEngine`) together with the external contracts its methods call.

Conventions used throughout:
* Python `None` becomes `Option.none`; an attribute that may be unset or
  absent is an `Option` field.
* The database manager is modelled by its observable state: the chronological
  list of stored `game_results` rows (row ids ascend with insertion order,
  so `ORDER BY id DESC` is list reversal) plus a fault flag under which the
  next write raises, which makes the `except` paths of the source reachable.
* Real-valued weights, accuracies and confidences are `Rat`; wall-clock
  timestamps and logging are not modelled (they influence no claim).
-/

/-- Modelled from the spec: the `Prediction` record of the data model,
produced by a strategy's `predict(window)` (the strategy classes are not
under `src/`). Only the fields the claims mention are kept: `label` (an
outcome or the `"abstain"` sentinel) and `confidence`. -/
structure Prediction where
  label : String
  confidence : Rat
deriving DecidableEq

/-- Modelled from the spec: a registered strategy object (`BaseAlgorithm` is
not under `src/`). It carries its name, its per-strategy tracked record
(`weight`, `accuracy`, `total_predictions`, `correct_predictions`) and its
`predict` capability `predictFn`. The engine file reads only `name` and
`get_info()` and never invokes `predictFn`. -/
structure Algorithm where
  name : String
  weight : Rat
  accuracy : Rat
  total_predictions : Nat
  correct_predictions : Nat
  predictFn : List String → Prediction

/-- One entry of the list returned by `get_algorithm_stats` (a Python dict).
`trained` and `model_version` are `none` for a plain strategy's entry, whose
dict carries only the first three keys. -/
structure StatEntry where
  name : String
  weight : Rat
  accuracy : Rat
  trained : Option Bool
  model_version : Option String
deriving DecidableEq

/-- Modelled from the spec: `BaseAlgorithm.get_info` is not under `src/`; per
the stats-query contract the summary reflects the strategy's current tracked
values at call time. -/
def Algorithm.get_info (a : Algorithm) : StatEntry :=
  { name := a.name, weight := a.weight, accuracy := a.accuracy,
    trained := none, model_version := none }

/-- The deep-learning model object passed to `set_deep_learning_model`. The
attributes the engine file reads via `hasattr`/`getattr` are `Option`s
(`none` means the attribute is absent). `weight` is the model's own tracked
weight, which the engine file never reads. -/
structure DeepLearningModel where
  trained : Option Bool
  accuracy : Option Rat
  version : Option String
  weight : Rat

/-- Modelled from the spec: the `DatabaseManager` (HistoryStore) is not under
`src/`. Its observable state is the chronological list of `game_results`
rows and a fault flag under which the next write raises. -/
structure DBManager where
  results : List String
  failNextWrite : Bool
deriving DecidableEq

/-- Modelled from the spec: `DatabaseManager.save_result` (the HistoryStore
`appendOutcome` contract) appends one outcome row and returns its id, or
raises. The `timestamp` (wall clock), `previous_pattern` (`None`) and
`session_id` (the constant `1`) arguments passed by the engine at lines
133-138 do not affect the stored outcome sequence and are not modelled. -/
def DBManager.save_result (db : DBManager) (result : String) :
    Except String (Int × DBManager) :=
  if db.failNextWrite then
    Except.error "save failed"
  else
    Except.ok ((db.results.length + 1 : Int),
               { db with results := db.results ++ [result] })

/-- `PredictionEngine.__init__` state (lines 23-32): the list of registered
algorithms, the optional LSTM model, the optional result aggregator (stored
but never used by any method of the file) and the optional database
manager. -/
structure PredictionEngine where
  algorithms : List Algorithm
  deep_learning_model : Option DeepLearningModel
  result_aggregator : Option Unit
  db_manager : Option DBManager

/-- `PredictionEngine.register_algorithm` (lines 34-42): unconditionally
appends the new algorithm to `self.algorithms`; no name check of any
kind. -/
def register_algorithm (e : PredictionEngine) (algorithm : Algorithm) :
    PredictionEngine :=
  { e with algorithms := e.algorithms ++ [algorithm] }

/-- Lines 87-95 of `predict`: the rows returned by
`SELECT * FROM game_results ORDER BY id DESC LIMIT 20` followed by the
extraction of the `result` column — the stored outcomes most-recent-first,
at most 20 of them. -/
def fetch_last_results (db : DBManager) : List String :=
  db.results.reverse.take 20

/-- Line 96 of `predict`: `results.reverse()` puts the fetched
most-recent-first rows back into chronological (oldest-first) order; this is
the `last_results` window that line 98 stores into `data`. -/
def build_window (db : DBManager) : List String :=
  (fetch_last_results db).reverse

/-- The `Consensus` result type of the spec's data model; `predict` is
specified to return one, but the source never constructs a value of this
type, so no constructor application of it appears anywhere below. -/
structure Consensus where
  label : String
  aggregate_confidence : Rat
deriving DecidableEq

/-- `PredictionEngine.predict` (lines 75-111). With caller data absent there
is an error path when no db manager is set (lines 77-80, returns `None`) and
a warning path when the table is empty (lines 90-92, returns `None`);
otherwise the window is built (lines 94-98) but the remaining body (lines
100-111) runs no code — the `save_prediction` branch only opens a connection
and the `try` block holds comments — and the function falls off the end
returning `None`. No field of `self` is assigned and no strategy or model
method is invoked anywhere in the body. -/
def predict (e : PredictionEngine) (data : Option (List String))
    (save_prediction : Bool) : Option Consensus × PredictionEngine :=
  match data with
  | none =>
    match e.db_manager with
    | none => (none, e)
    | some db =>
      if fetch_last_results db = [] then (none, e)
      else (none, e)
  | some _ => (none, e)

/-- `PredictionEngine.update_results` (lines 114-147): with no db manager it
logs and returns `-1` (lines 124-126); otherwise it calls `save_result`
inside `try` — on success it logs and returns the new row id (lines
133-144), on any exception it logs and returns `-1` (lines 145-147). No
other statement executes: the active-prediction lookup and the performance
update are comments (lines 129-130 and 140-141). -/
def update_results (e : PredictionEngine) (actual_result : String) :
    Int × PredictionEngine :=
  match e.db_manager with
  | none => (-1, e)
  | some db =>
    match db.save_result actual_result with
    | Except.ok (result_id, db2) => (result_id, { e with db_manager := some db2 })
    | Except.error _ => (-1, e)

/-- `PredictionEngine.get_algorithm_stats` (lines 149-171): one `get_info()`
entry per registered algorithm, then an `LSTM` entry exactly when the model
is set and `hasattr(self.deep_learning_model, 'trained')` holds — built with
the constant weight `1.5` (line 165), `getattr(model, 'accuracy', 0.0)`, the
`trained` attribute's value, and `getattr(model, 'version', '1.0')`. -/
def get_algorithm_stats (e : PredictionEngine) : List StatEntry :=
  let stats := e.algorithms.map Algorithm.get_info
  match e.deep_learning_model with
  | some model =>
    match model.trained with
    | some t =>
      stats ++ [{ name := "LSTM", weight := 3/2,
                  accuracy := model.accuracy.getD 0,
                  trained := some t,
                  model_version := some (model.version.getD "1.0") }]
    | none => stats
  | none => stats

/-! Concrete objects used by the end-to-end scenarios of the claims. -/

/-- A strategy that predicts `B` with confidence `0.8` for any window, with
5 recorded attempts of which 2 were correct. -/
def S1 : Algorithm :=
  { name := "S1", weight := 1, accuracy := 2/5,
    total_predictions := 5, correct_predictions := 2,
    predictFn := fun _ => { label := "B", confidence := 4/5 } }

/-- A second strategy bearing the same name `"S1"`. -/
def S1b : Algorithm :=
  { name := "S1", weight := 1, accuracy := 0,
    total_predictions := 0, correct_predictions := 0,
    predictFn := fun _ => { label := "P", confidence := 1/2 } }

/-- The scenario window of the spec's end-to-end scenarios. -/
def scenarioWindow : List String := ["P", "B", "P", "P", "B"]

/-- An engine with strategy `S1` registered and a working store holding two
outcomes. -/
def engineA : PredictionEngine :=
  { algorithms := [S1], deep_learning_model := none,
    result_aggregator := none, db_manager := some ⟨["P", "B"], false⟩ }

/-- An engine with no strategies and a working store holding one outcome. -/
def engineX : PredictionEngine :=
  { algorithms := [], deep_learning_model := none,
    result_aggregator := none, db_manager := some ⟨["P"], false⟩ }

/-- An engine whose store raises on the next write. -/
def engineF : PredictionEngine :=
  { algorithms := [], deep_learning_model := none,
    result_aggregator := none, db_manager := some ⟨["P"], true⟩ }

/-- An engine with strategy `S1` registered whose store raises on the next
write. -/
def engineFS : PredictionEngine :=
  { algorithms := [S1], deep_learning_model := none,
    result_aggregator := none, db_manager := some ⟨["P"], true⟩ }

/-- A set-but-untrained learning model: it exposes `trained = False`. -/
def untrainedModel : DeepLearningModel :=
  { trained := some false, accuracy := some (7/10), version := some "2.0",
    weight := 1 }

/-- An engine whose learning model is set but untrained. -/
def engineU : PredictionEngine :=
  { algorithms := [], deep_learning_model := some untrainedModel,
    result_aggregator := none, db_manager := none }

/-- A trained learning model whose own tracked weight is `2`. -/
def trainedModel : DeepLearningModel :=
  { trained := some true, accuracy := some (7/10), version := some "1.0",
    weight := 2 }

/-- An engine whose learning model is set and trained. -/
def engineT : PredictionEngine :=
  { algorithms := [], deep_learning_model := some trainedModel,
    result_aggregator := none, db_manager := none }

/-- The `__init__` state of a fresh engine (lines 27-30): no algorithms, no
model, no aggregator, no database manager. -/
def emptyEngine : PredictionEngine :=
  { algorithms := [], deep_learning_model := none,
    result_aggregator := none, db_manager := none }

/-! General helper lemmas about taking and dropping around an appended stats
tail; shared by the stats-query theorems. -/

/-- Taking the first `l.length` entries of the mapped summaries with any tail
appended returns exactly the mapped summaries. -/
theorem take_length_map_append (l : List Algorithm) (x : List StatEntry) :
    (l.map Algorithm.get_info ++ x).take l.length = l.map Algorithm.get_info :=
  List.take_left' (List.length_map _ _)

/-- Dropping the first `l.length` entries of the mapped summaries with a tail
appended returns exactly the tail. -/
theorem drop_length_map_append (l : List Algorithm) (x : List StatEntry) :
    (l.map Algorithm.get_info ++ x).drop l.length = x :=
  List.drop_left' (List.length_map _ _)

/-- Taking the first `l.length` entries of the mapped summaries alone returns
all of them. -/
theorem take_length_map (l : List Algorithm) :
    (l.map Algorithm.get_info).take l.length = l.map Algorithm.get_info := by
  rw [← List.length_map l Algorithm.get_info]
  exact List.take_length _

/-! Theorems settling the claims. -/

/-- Claim C1 (code evaluated at the failing input): in state `engineA` the
registered strategy `S1` returns the non-abstaining prediction `B` at
confidence `0.8` for the supplied window, yet `predict` with the
save-prediction flag set returns `None` — no `Consensus` — because the
fan-out/aggregate stages of the source body are elided comments and no
strategy is ever invoked. -/
theorem predict_stub_returns_no_consensus :
    S1.predictFn scenarioWindow = { label := "B", confidence := 4/5 } ∧
    (S1.predictFn scenarioWindow).label ≠ "abstain" ∧
    predict engineA (some scenarioWindow) true = (none, engineA) :=
  ⟨rfl, by decide, rfl⟩

/-- Claim C2 (code evaluated at the failing input): resolving outcome `"B"`
on `engineA` persists successfully (the new row id `3` is returned) and
strategy `S1` had predicted `B`, yet `S1`'s tracker record is untouched —
`total_predictions` stays `5` and `correct_predictions` stays `2` — because
the tracker-update stage of the source is an elided comment and `onOutcome`
is never called. -/
theorem update_results_never_updates_trackers :
    (update_results engineA "B").1 = 3 ∧
    ((update_results engineA "B").2.algorithms.map
        (fun a => (a.name, a.total_predictions, a.correct_predictions)))
      = [("S1", 5, 2)] :=
  ⟨rfl, rfl⟩

/-- Claim C3 counterexample: the out-of-alphabet outcome `"X"` is not
rejected: `update_results` performs the store write — `"X"` is appended as
row 2 of the history — and returns the new row id, so the call neither
fails with `InvalidOutcome` nor aborts before the write. -/
theorem invalid_outcome_written_not_rejected :
    update_results engineX "X"
      = (2, { engineX with db_manager := some ⟨["P", "X"], false⟩ }) := rfl

/-- Claim C3 amended: `update_results` validates nothing: for every outcome
string, member of the closed label set or not, when the store is configured
and its write succeeds the outcome is appended to the history verbatim and
the new row id is returned. -/
theorem update_results_accepts_any_outcome
    (e : PredictionEngine) (db : DBManager) (actual : String)
    (hdb : e.db_manager = some db) (hok : db.failNextWrite = false) :
    update_results e actual
      = ((db.results.length + 1 : Int),
         { e with db_manager := some ({ db with results := db.results ++ [actual] }) }) := by
  simp [update_results, hdb, DBManager.save_result, hok]

/-- Witness for the amended C3 theorem at a concrete input. -/
theorem update_results_accepts_any_outcome_witness :
    engineX.db_manager = some ⟨["P"], false⟩ ∧
    (DBManager.mk ["P"] false).failNextWrite = false ∧
    update_results engineX "X"
      = (2, { engineX with db_manager := some ⟨["P", "X"], false⟩ }) :=
  ⟨rfl, rfl, update_results_accepts_any_outcome engineX ⟨["P"], false⟩ "X" rfl rfl⟩

/-- Claim C4 counterexample: when the store write raises, `update_results`
catches the exception and returns the ordinary integer sentinel `-1` with
the engine unchanged — no `PersistenceError` (nor any raised error) reaches
the caller, whose result is a plain row-id integer. -/
theorem persistence_failure_swallowed_to_sentinel :
    update_results engineF "B" = (-1, engineF) := rfl

/-- Claim C4 amended: when the HistoryStore write of the actual outcome
fails, `update_results` catches the failure internally and reports it to
the caller only as the documented error sentinel `-1` (with the engine left
unchanged); no `PersistenceError` is raised or propagated. -/
theorem failed_write_returns_error_sentinel
    (e : PredictionEngine) (db : DBManager) (actual : String)
    (hdb : e.db_manager = some db) (hfail : db.failNextWrite = true) :
    update_results e actual = (-1, e) := by
  simp [update_results, hdb, DBManager.save_result, hfail]

/-- Witness for the amended C4 theorem at a concrete input. -/
theorem failed_write_returns_error_sentinel_witness :
    engineF.db_manager = some ⟨["P"], true⟩ ∧
    (DBManager.mk ["P"] true).failNextWrite = true ∧
    update_results engineF "B" = (-1, engineF) :=
  ⟨rfl, rfl, failed_write_returns_error_sentinel engineF ⟨["P"], true⟩ "B" rfl rfl⟩

/-- Claim C5: when persisting the actual outcome fails, no per-strategy
record is mutated: the registered-algorithms list — and with it every
strategy's `total_predictions`, `correct_predictions`, `accuracy` and
`weight` — is exactly as it was before the call (indeed `update_results`
returns the engine unchanged together with the `-1` sentinel). -/
theorem failed_persist_mutates_no_strategy_record
    (e : PredictionEngine) (db : DBManager) (actual : String)
    (hdb : e.db_manager = some db) (hfail : db.failNextWrite = true) :
    (update_results e actual).2.algorithms = e.algorithms := by
  simp [update_results, hdb, DBManager.save_result, hfail]

/-- Witness for the C5 theorem at a concrete input. -/
theorem failed_persist_mutates_no_strategy_record_witness :
    engineFS.db_manager = some ⟨["P"], true⟩ ∧
    (DBManager.mk ["P"] true).failNextWrite = true ∧
    (update_results engineFS "B").2.algorithms = engineFS.algorithms :=
  ⟨rfl, rfl,
   failed_persist_mutates_no_strategy_record engineFS ⟨["P"], true⟩ "B" rfl rfl⟩

/-- Claim C6: with a configured store holding at least one outcome, the
window `predict` builds from the store is exactly the chronological suffix
of the last at-most-20 stored outcomes — the most-recent-first rows of the
query reversed back into chronological order — so it is nonempty, its
length is at most the configured maximum 20, and it preserves the store's
chronological order (it is a contiguous suffix of the stored history). -/
theorem predict_builds_recent_chronological_window
    (db : DBManager) (h : db.results ≠ []) :
    build_window db = db.results.drop (db.results.length - 20) ∧
    (build_window db).length ≤ 20 ∧
    List.IsSuffix (build_window db) db.results ∧
    build_window db ≠ [] := by
  have key : build_window db = db.results.drop (db.results.length - 20) := by
    rw [build_window, fetch_last_results]
    exact (List.rtake_eq_reverse_take_reverse db.results 20).symm
  have hpos : 0 < db.results.length := List.length_pos.mpr h
  refine ⟨key, ?_, ?_, ?_⟩
  · rw [key, List.length_drop]
    omega
  · rw [key]
    exact List.drop_suffix _ _
  · rw [key]
    intro hnil
    rw [List.drop_eq_nil_iff] at hnil
    omega

/-- Witness for the C6 theorem at a concrete store. -/
theorem predict_builds_recent_chronological_window_witness :
    (DBManager.mk ["P", "B", "T"] false).results ≠ [] ∧
    (build_window ⟨["P", "B", "T"], false⟩
        = (DBManager.mk ["P", "B", "T"] false).results.drop
            ((DBManager.mk ["P", "B", "T"] false).results.length - 20) ∧
     (build_window ⟨["P", "B", "T"], false⟩).length ≤ 20 ∧
     List.IsSuffix (build_window ⟨["P", "B", "T"], false⟩)
        (DBManager.mk ["P", "B", "T"] false).results ∧
     build_window ⟨["P", "B", "T"], false⟩ ≠ []) :=
  ⟨by decide, predict_builds_recent_chronological_window ⟨["P", "B", "T"], false⟩ (by decide)⟩

/-- Claim C7 counterexample: a set-but-untrained model — its `trained`
attribute exists and is `False` — still contributes an entry: the stats of
an engine with no strategies and this model hold exactly the `LSTM` summary
with `trained := some false`. -/
theorem untrained_model_still_contributes_entry :
    untrainedModel.trained = some false ∧
    get_algorithm_stats engineU
      = [{ name := "LSTM", weight := 3/2, accuracy := 7/10,
           trained := some false, model_version := some "2.0" }] :=
  ⟨rfl, rfl⟩

/-- Claim C7 amended: `get_algorithm_stats` returns exactly one summary per
registered strategy (in registration order), plus a summary for the
learning model if and only if the model is set and exposes a `trained`
attribute — regardless of that attribute's value, so a set-but-untrained
model still contributes an entry while a set model without the attribute
contributes none. -/
theorem stats_one_per_strategy_plus_lstm_iff_has_trained_attr
    (e : PredictionEngine) :
    (get_algorithm_stats e).take e.algorithms.length
        = e.algorithms.map Algorithm.get_info ∧
    (get_algorithm_stats e).length
        = e.algorithms.length
          + (e.deep_learning_model.elim 0
              (fun model => if model.trained.isSome then 1 else 0)) := by
  obtain ⟨algs, dl, ra, dbm⟩ := e
  cases dl with
  | none =>
    simp only [get_algorithm_stats, Option.elim]
    exact ⟨take_length_map _, by simp⟩
  | some model =>
    cases ht : model.trained with
    | none =>
      simp only [get_algorithm_stats, ht, Option.elim, Option.isSome_none,
                 Bool.false_eq_true, if_false]
      exact ⟨take_length_map _, by simp⟩
    | some t =>
      simp only [get_algorithm_stats, ht, Option.elim, Option.isSome_some,
                 if_true]
      exact ⟨take_length_map_append _ _, by simp⟩

/-- Claim C8 counterexample: the learning model's own tracked weight is `2`,
yet its stats entry carries the hard-coded constant weight `1.5`: the
returned summary does not reflect the model's current tracked value. -/
theorem lstm_weight_is_constant_not_tracked :
    trainedModel.weight = 2 ∧
    (get_algorithm_stats engineT).map StatEntry.weight = [3/2] ∧
    (3/2 : Rat) ≠ 2 :=
  ⟨rfl, rfl, by norm_num⟩

/-- Claim C8 amended: each registered strategy's summary equals that
strategy's `get_info()` at call time; the learning-model entry's `accuracy`
and `trained` fields are read from the model at call time (`accuracy`
defaulting to `0.0`, `version` to `"1.0"`), but its `weight` field is
always the constant `1.5`, independent of the model's tracked weight. -/
theorem stats_live_except_constant_lstm_weight
    (e : PredictionEngine) (model : DeepLearningModel) (t : Bool)
    (hm : e.deep_learning_model = some model) (ht : model.trained = some t) :
    (get_algorithm_stats e).take e.algorithms.length
        = e.algorithms.map Algorithm.get_info ∧
    (get_algorithm_stats e).drop e.algorithms.length
        = [{ name := "LSTM", weight := 3/2,
             accuracy := model.accuracy.getD 0,
             trained := some t,
             model_version := some (model.version.getD "1.0") }] := by
  obtain ⟨algs, dl, ra, dbm⟩ := e
  replace hm : dl = some model := hm
  subst hm
  simp only [get_algorithm_stats, ht]
  exact ⟨take_length_map_append _ _, drop_length_map_append _ _⟩

/-- Witness for the amended C8 theorem at a concrete engine. -/
theorem stats_live_except_constant_lstm_weight_witness :
    engineT.deep_learning_model = some trainedModel ∧
    trainedModel.trained = some true ∧
    ((get_algorithm_stats engineT).take engineT.algorithms.length
        = engineT.algorithms.map Algorithm.get_info ∧
     (get_algorithm_stats engineT).drop engineT.algorithms.length
        = [{ name := "LSTM", weight := 3/2,
             accuracy := trainedModel.accuracy.getD 0,
             trained := some true,
             model_version := some (trainedModel.version.getD "1.0") }]) :=
  ⟨rfl, rfl, stats_live_except_constant_lstm_weight engineT trainedModel true rfl rfl⟩

/-- Claim C9 counterexample: registering two strategies both named `"S1"` on
a fresh engine leaves two active entries with that name — the second
registration is neither rejected nor does it overwrite the first. -/
theorem duplicate_name_registered_twice :
    ((register_algorithm (register_algorithm emptyEngine S1) S1b).algorithms.map
        Algorithm.name) = ["S1", "S1"] := rfl

/-- Claim C9 amended: `register_algorithm` appends unconditionally, so a
second registration under an already-used name results in at least two
active entries bearing that name; name uniqueness is not enforced. -/
theorem register_appends_allows_duplicate_names
    (e : PredictionEngine) (a b : Algorithm) (h : a.name = b.name) :
    2 ≤ (((register_algorithm (register_algorithm e a) b).algorithms.map
        Algorithm.name).count a.name) := by
  rw [register_algorithm, register_algorithm]
  simp only [List.map_append, List.count_append, List.map_cons, List.map_nil]
  rw [← h, List.count_singleton_self]
  omega

/-- Witness for the amended C9 theorem at a concrete pair of same-named
strategies. -/
theorem register_appends_allows_duplicate_names_witness :
    S1.name = S1b.name ∧
    2 ≤ (((register_algorithm (register_algorithm emptyEngine S1) S1b).algorithms.map
        Algorithm.name).count S1.name) :=
  ⟨rfl, register_appends_allows_duplicate_names emptyEngine S1 S1b rfl⟩

/-- Claim C10: `predict` never mutates the engine's own state: for every
engine, every caller-supplied data (present or absent) and either value of
the save-prediction flag, the engine returned alongside the result — its
registered-algorithms list, deep-learning model, result aggregator and
database manager — is exactly the input engine. -/
theorem predict_preserves_engine_state
    (e : PredictionEngine) (data : Option (List String))
    (save_prediction : Bool) :
    (predict e data save_prediction).2 = e := by
  unfold predict
  cases data with
  | some w => rfl
  | none =>
    cases e.db_manager with
    | none => rfl
    | some db =>
      by_cases hf : fetch_last_results db = [] <;> simp [hf]
